import Mathlib

/-!
Shallow embedding of the `logger` Go package (dual-sink structured logger).

The package writes every log event to a rotating file sink and, best-effort,
to a PostgreSQL table.  The database pool, the file-rotation sink, and the
`encoding/json` marshaller are external collaborators; they are modelled as
environment-supplied outcomes.  Pure formatting, validation, normalization
and control flow are translated directly from the Go source
(`src/main.go`, and the second revision in `src/unnamed/part_000`).
-/

namespace LoggerGo

/-- Go `len` on a string counts UTF-8 bytes. -/
def goLen (s : String) : Nat := s.utf8ByteSize

/-- Go `strings.ToLower`, modelled as the per-character case mapping
(`Char.toLower` lowers the ASCII range, which covers every level and
status string the source uses). -/
def goToLower (s : String) : String := ⟨s.data.map Char.toLower⟩

/-- A Go `error` value: `none` is the nil error, `some msg` is an error whose
`%v` rendering is `msg`. -/
def GoError := Option String

instance : DecidableEq GoError := inferInstanceAs (DecidableEq (Option String))

/-- A Go `interface\x7b\x7d` metadata argument, abstracted by what
`encoding/json.Marshal` does with it: `goNil` is the nil interface,
`doc s` is a value that serializes to the byte string `s`, and
`bad e` is a value on which `Marshal` fails with error text `e`. -/
inductive Metadata where
  | goNil : Metadata
  | doc (serialized : String) : Metadata
  | bad (errMsg : String) : Metadata
  deriving DecidableEq, Repr

/-- `encoding/json.Marshal`, abstracted on the `Metadata` values above.
The Go standard library serializes a nil `interface\x7b\x7d` to `null`. -/
def jsonMarshal : Metadata → Except String String
  | .goNil => .ok "null"
  | .doc s => .ok s
  | .bad e => .error e

/-- A resolved caller frame, as returned by `runtime.Caller`:
the file path and line number. -/
structure Frame where
  file : String
  line : Nat
  deriving DecidableEq, Repr

/-- Write-time environment: the outcome of `runtime.Caller(2)` inside
`captureStackTrace` (`none` when frame resolution fails), and the outcome of
`pool.Exec` on the insert statement (`none` = success, `some e` = error). -/
structure Env where
  caller : Option Frame
  execErr : Option String
  deriving DecidableEq, Repr

/-- The `Logger` struct.  The pool pointer `db` is abstracted to presence:
`db = true` models a non-nil `*pgxpool.Pool`. -/
structure Logger where
  db : Bool
  processID : String
  createdBy : String
  schema : String
  processName : String
  deriving DecidableEq, Repr

/-- One parameterized insert handed to `pool.Exec`: the SQL text, the
context timeout in seconds, and the nine positional arguments
(`processid, processname, deviceid, fileid, loglevel, status, createdby,
errormessage, metadata`). -/
structure InsertCall where
  query : String
  timeoutSeconds : Nat
  args : List String
  deriving DecidableEq, Repr

/-- Observable effect of a write-path call: the message lines handed to the
file sink (in order, without the timestamp header the sink itself adds), and the
insert executed against the pool, if any. -/
structure Effect where
  fileLines : List String
  insert : Option InsertCall
  deriving DecidableEq, Repr

/-- `captureStackTrace` (src/main.go:167-177): empty string on a nil error;
otherwise the error text plus the file and line of the caller when
`runtime.Caller` resolves, or the error text alone when it does not. -/
def captureStackTrace (err : GoError) (caller : Option Frame) : String :=
  match err with
  | none => ""
  | some msg =>
    match caller with
    | some f => "Error: " ++ msg ++ " | File: " ++ f.file ++ " | Line: " ++ toString f.line
    | none => "Error: " ++ msg

/-- The valid log levels (keys of `validLogLevels` in src/main.go:198). -/
def validLogLevels : List String := ["info", "warn", "error", "debug"]

/-- Diagnostic written when the pool is nil (src/main.go:184). -/
def noDBLine : String := "DB logging skipped: No database connection"

/-- Diagnostic for a failed length invariant (src/main.go:194). -/
def invalidIDLine : String :=
  "Invalid log: Device ID must be 16 digits, File ID must be 64 digits"

/-- Diagnostic for an invalid log level (src/main.go:200). -/
def invalidLevelLine : String :=
  "Invalid log: Log level must be one of: info, warn, error, debug"

/-- Diagnostic for a metadata serialization failure (src/main.go:211). -/
def marshalFailLine (e : String) : String := "Failed to compress metadata: " ++ e

/-- Diagnostic for a failed insert execution (src/main.go:225). -/
def insertFailLine (e : String) : String := "Failed to insert log into DB: " ++ e

/-- The insert statement of src/main.go:216-218 (schema identifier quoted). -/
def insertQuery (schema : String) : String :=
  "\n\t\tINSERT INTO \"" ++ schema ++
  "\".fotadevicelogs (processid, processname, deviceid, fileid, loglevel, status, createdby, errormessage, metadata)\n\t\tVALUES ($1, $2, $3, $4, $5, $6, $7, $8, $9)"

/-- The insert statement of src/unnamed/part_000:175-177 (schema unquoted). -/
def insertQueryV0 (schema : String) : String :=
  "\n\t\tINSERT INTO " ++ schema ++
  ".fotadevicelogs (processid, processname, deviceid, fileid, loglevel, status, createdby, errormessage, metadata)\n\t\tVALUES ($1, $2, $3, $4, $5, $6, $7, $8, $9)"

/-- `LogToDB` as in src/main.go:182-227.  Pool-presence check, lowercase
normalization, length validation, level validation, stack-trace capture,
metadata serialization (nil becomes the literal \x7b\x7d document), then a
parameterized insert with a 30-second timeout; every failure is written to
the file sink and nothing is returned to the caller. -/
def LogToDB (l : Logger) (deviceID fileID logLevel status : String)
    (metadata : Metadata) (err : GoError) (env : Env) : Effect :=
  if l.db = false then
    { fileLines := [noDBLine], insert := none }
  else
    let logLevel := goToLower logLevel
    let status := goToLower status
    if goLen deviceID ≠ 16 ∨ goLen fileID ≠ 64 then
      { fileLines := [invalidIDLine], insert := none }
    else if logLevel ∉ validLogLevels then
      { fileLines := [invalidLevelLine], insert := none }
    else
      let errorDetails := captureStackTrace err env.caller
      let compressed : Except String String :=
        if metadata = .goNil then .ok "\x7b\x7d" else jsonMarshal metadata
      match compressed with
      | .error e => { fileLines := [marshalFailLine e], insert := none }
      | .ok compressedMetadata =>
        { fileLines :=
            match env.execErr with
            | none => []
            | some e => [insertFailLine e]
          insert := some
            { query := insertQuery l.schema
              timeoutSeconds := 30
              args := [l.processID, l.processName, deviceID, fileID, logLevel,
                       status, l.createdBy, errorDetails, compressedMetadata] } }

/-- `LogToDB` as in src/unnamed/part_000:145-186.  Identical gating, but the
metadata always goes through `json.Marshal` (so a nil interface serializes
to `null`), the schema identifier is unquoted in the statement, and the
execute timeout is 5 seconds. -/
def LogToDBV0 (l : Logger) (deviceID fileID logLevel status : String)
    (metadata : Metadata) (err : GoError) (env : Env) : Effect :=
  if l.db = false then
    { fileLines := [noDBLine], insert := none }
  else
    let logLevel := goToLower logLevel
    let status := goToLower status
    if goLen deviceID ≠ 16 ∨ goLen fileID ≠ 64 then
      { fileLines := [invalidIDLine], insert := none }
    else if logLevel ∉ validLogLevels then
      { fileLines := [invalidLevelLine], insert := none }
    else
      let errorDetails := captureStackTrace err env.caller
      match jsonMarshal metadata with
      | .error e => { fileLines := [marshalFailLine e], insert := none }
      | .ok compressedMetadata =>
        { fileLines :=
            match env.execErr with
            | none => []
            | some e => [insertFailLine e]
          insert := some
            { query := insertQueryV0 l.schema
              timeoutSeconds := 5
              args := [l.processID, l.processName, deviceID, fileID, logLevel,
                       status, l.createdBy, errorDetails, compressedMetadata] } }

/-- `Log` as in src/main.go:255-265: format the human-readable line, append
the stack trace when an error is present, hand the line to the file sink,
then call `LogToDB`. -/
def Log (l : Logger) (deviceID fileID logLevel status : String)
    (metadata : Metadata) (err : GoError) (env : Env) : Effect :=
  let logMessage := "[" ++ logLevel ++ "] Device: " ++ deviceID ++ ", File: " ++
    fileID ++ ", Status: " ++ status
  let logMessage :=
    match err with
    | none => logMessage
    | some _ => logMessage ++ " | " ++ captureStackTrace err env.caller
  let rest := LogToDB l deviceID fileID logLevel status metadata err env
  { fileLines := logMessage :: rest.fileLines, insert := rest.insert }

deriving instance DecidableEq for Except

/-- Go `strings.HasSuffix`, modelled on the character sequence. -/
def goHasSuffix (s suffix : String) : Bool := suffix.data.isSuffixOf s.data

/-- `filepath.Join` on a directory and a file name, modelled as
slash-separated concatenation (the path library is an external
collaborator; the arguments the source passes are already clean). -/
def filepathJoin (a b : String) : String := a ++ "/" ++ b

/-- The bootstrap statement `createSchemaQuery` of src/main.go:113. -/
def createSchemaQuery (schema : String) : String :=
  "CREATE SCHEMA IF NOT EXISTS " ++ schema ++ ";"

/-- The bootstrap statement `createTableQuery` of src/main.go:120-132,
reproduced byte for byte (tabs and trailing spaces included). -/
def createTableQuery (schema : String) : String :=
  "\n\tCREATE TABLE IF NOT EXISTS \"" ++ schema ++
  "\".fotadevicelogs (\n\t\tprocessid TEXT NOT NULL,\n\t\tprocessname TEXT NOT NULL,\n\t\tdeviceid TEXT NOT NULL,\n\t\tfileid TEXT NOT NULL,\n\t\tloglevel TEXT NOT NULL,\n\t\tstatus TEXT NOT NULL,\n\t\terrormessage TEXT, \n\t\tmetadata JSONB DEFAULT \x27\x7b\x7d\x27,\n\t\tcreatedby TEXT NOT NULL, \n\t\tcreatedat BIGINT DEFAULT CAST(extract(epoch FROM NOW()) * 1000 AS BIGINT) NOT NULL,\n\t\tPRIMARY KEY (processid, deviceid, fileid , processname, createdat));"

/-- Initialization-time environment: the OS process id, the outcome of
`os.Getwd`, and the outcomes of pool construction, ping, and the two
bootstrap statements (`none` = success). -/
structure InitEnv where
  pid : Nat
  cwd : Except String String
  poolErr : Option String
  pingErr : Option String
  schemaExecErr : Option String
  tableExecErr : Option String
  deriving DecidableEq, Repr

/-- Result of a successful `InitLogger`: the constructed `Logger` plus the
bootstrap statements it executed and the resolved log-file path. -/
structure InitResult where
  logger : Logger
  schemaQuery : String
  tableQuery : String
  logPath : String
  deriving DecidableEq, Repr

/-- `InitLogger` (src/main.go:78-159): resolve the effective schema name
(strings of length at most 3 fall back to `public`), resolve the log-file
path, construct the pool, ping it, run the two idempotent bootstrap
statements, and build the `Logger`; each failure returns the wrapped
error. -/
def InitLogger (dbURL processName createdBy logFilePath schema : String)
    (env : InitEnv) : Except String InitResult :=
  let defaultSchema := if goLen schema ≤ 3 then "public" else schema
  let resolvedPath : Except String String :=
    if logFilePath = "" then
      match env.cwd with
      | .error e => .error ("failed to get current directory: " ++ e)
      | .ok execPath => .ok (filepathJoin execPath "applogs.log")
    else if goHasSuffix logFilePath ".log" = false then
      .ok (filepathJoin logFilePath "applogs.log")
    else .ok logFilePath
  match resolvedPath with
  | .error e => .error e
  | .ok path =>
    match env.poolErr with
    | some e => .error ("database connection failed: " ++ e)
    | none =>
      match env.pingErr with
      | some e => .error ("database ping failed: " ++ e)
      | none =>
        match env.schemaExecErr with
        | some e => .error ("failed to create schema: " ++ e)
        | none =>
          match env.tableExecErr with
          | some e => .error ("failed to create log table: " ++ e)
          | none =>
            .ok { logger := { db := true, processID := toString env.pid,
                              createdBy := createdBy, schema := defaultSchema,
                              processName := processName }
                  schemaQuery := createSchemaQuery defaultSchema
                  tableQuery := createTableQuery defaultSchema
                  logPath := path }

set_option maxRecDepth 100000

/-- Claim C10: when the pool is nil, `LogToDB` writes the single diagnostic
`DB logging skipped: No database connection` and returns before lowercasing
or validating any argument: for every (possibly invalid) record the whole
effect is that one line and no insert, so degraded mode never produces a
validation diagnostic. -/
theorem logToDB_pool_check_precedes_validation
    (l : Logger) (deviceID fileID logLevel status : String)
    (metadata : Metadata) (err : GoError) (env : Env) (h : l.db = false) :
    LogToDB l deviceID fileID logLevel status metadata err env =
      { fileLines := [noDBLine], insert := none } := by
  simp [LogToDB, h]

/-- Witness for C10: a pool-less logger given an invalid record produces
only the skip diagnostic. -/
theorem logToDB_pool_check_precedes_validation_witness :
    LogToDB { db := false, processID := "1", createdBy := "c", schema := "public",
              processName := "p" } "short" "fid" "LOUD" "UP" .goNil none
      { caller := none, execErr := none } =
      { fileLines := [noDBLine], insert := none } :=
  logToDB_pool_check_precedes_validation _ _ _ _ _ _ _ _ rfl

/-- Claim C8: `captureStackTrace` on a nil error returns the empty string
for every frame-resolution outcome (it never inspects the frame), and on a
non-nil error returns the formatted location string when the caller frame
resolves, or the bare error text when resolution fails. -/
theorem captureStackTrace_contract (msg : String) (caller : Option Frame) (fr : Frame) :
    captureStackTrace none caller = "" ∧
    captureStackTrace (some msg) (some fr) =
      "Error: " ++ msg ++ " | File: " ++ fr.file ++ " | Line: " ++ toString fr.line ∧
    captureStackTrace (some msg) none = "Error: " ++ msg :=
  ⟨rfl, rfl, rfl⟩

/-- Claim C3: every `Log` call puts the human-readable event line first in
the file sink — `[level] Device: ..., File: ..., Status: ...`, with the
stack-trace suffix exactly when an error is present — before any database
interaction, regardless of pool state, validation outcome, or insert
failure; everything else in the effect comes from `LogToDB`. -/
theorem log_event_line_always_first
    (l : Logger) (deviceID fileID logLevel status : String)
    (metadata : Metadata) (err : GoError) (env : Env) :
    (Log l deviceID fileID logLevel status metadata err env).fileLines =
      (match err with
       | none => "[" ++ logLevel ++ "] Device: " ++ deviceID ++ ", File: " ++
           fileID ++ ", Status: " ++ status
       | some _ => "[" ++ logLevel ++ "] Device: " ++ deviceID ++ ", File: " ++
           fileID ++ ", Status: " ++ status ++ " | " ++
           captureStackTrace err env.caller) ::
        (LogToDB l deviceID fileID logLevel status metadata err env).fileLines ∧
    (Log l deviceID fileID logLevel status metadata err env).insert =
      (LogToDB l deviceID fileID logLevel status metadata err env).insert := by
  cases err <;> simp [Log]

/-- Claim C2: with a configured pool, a device id whose byte length is not
16 or a file id whose byte length is not 64 makes `Log` write the length
diagnostic to the file sink and never invoke the insert. -/
theorem log_bad_lengths_skip_persistence
    (l : Logger) (deviceID fileID logLevel status : String)
    (metadata : Metadata) (err : GoError) (env : Env)
    (hdb : l.db = true) (hlen : goLen deviceID ≠ 16 ∨ goLen fileID ≠ 64) :
    invalidIDLine ∈ (Log l deviceID fileID logLevel status metadata err env).fileLines ∧
    (Log l deviceID fileID logLevel status metadata err env).insert = none := by
  simp only [Log, LogToDB, hdb]
  rw [if_neg (by simp), if_pos hlen]
  cases err <;> simp

/-- Witness for C2: a 5-byte device id is diagnosed and not persisted. -/
theorem log_bad_lengths_skip_persistence_witness :
    invalidIDLine ∈ (Log { db := true, processID := "1", createdBy := "c", schema := "public", processName := "p" } "short"
        "00064467DD629E36C838C3E94F20A490A96B4DB084FA300C3DD64D5D45949DE9"
        "info" "ok" .goNil none { caller := none, execErr := none }).fileLines ∧
    (Log { db := true, processID := "1", createdBy := "c", schema := "public", processName := "p" } "short"
        "00064467DD629E36C838C3E94F20A490A96B4DB084FA300C3DD64D5D45949DE9"
        "info" "ok" .goNil none { caller := none, execErr := none }).insert = none :=
  log_bad_lengths_skip_persistence _ _ _ _ _ _ _ _ rfl (Or.inl (by decide))

/-- Every insert issued by `LogToDB` carries the statement built from the
stored schema, the 30-second timeout, a level valid after lowercasing, and
the nine arguments in order, with nil metadata serialized to the empty
document and a document serialized to its own bytes. -/
theorem logToDB_insert_shape (l : Logger) (deviceID fileID logLevel status : String)
    (metadata : Metadata) (err : GoError) (env : Env) (c : InsertCall)
    (hc : (LogToDB l deviceID fileID logLevel status metadata err env).insert = some c) :
    c.query = insertQuery l.schema ∧ c.timeoutSeconds = 30 ∧
    goToLower logLevel ∈ validLogLevels ∧
    (metadata = .goNil →
      c.args = [l.processID, l.processName, deviceID, fileID, goToLower logLevel,
                goToLower status, l.createdBy, captureStackTrace err env.caller, "\x7b\x7d"]) ∧
    (∀ s, metadata = .doc s →
      c.args = [l.processID, l.processName, deviceID, fileID, goToLower logLevel,
                goToLower status, l.createdBy, captureStackTrace err env.caller, s]) := by
  by_cases hdb : l.db = false
  · simp [LogToDB, hdb] at hc
  · by_cases hlen : goLen deviceID ≠ 16 ∨ goLen fileID ≠ 64
    · simp [LogToDB, hdb, hlen] at hc
    · by_cases hlv : goToLower logLevel ∉ validLogLevels
      · simp [LogToDB, hdb, hlen, hlv] at hc
      · rcases metadata with _ | s | e <;>
          simp [LogToDB, hdb, hlen, hlv, jsonMarshal] at hc <;>
          simp [← hc, not_not.mp hlv]

/-- Counterpart of `logToDB_insert_shape` for the revision in
src/unnamed/part_000: statement with unquoted schema, 5-second timeout, and
nil metadata serialized to `null` by `json.Marshal`. -/
theorem logToDBV0_insert_shape (l : Logger) (deviceID fileID logLevel status : String)
    (metadata : Metadata) (err : GoError) (env : Env) (c : InsertCall)
    (hc : (LogToDBV0 l deviceID fileID logLevel status metadata err env).insert = some c) :
    c.query = insertQueryV0 l.schema ∧ c.timeoutSeconds = 5 ∧
    goToLower logLevel ∈ validLogLevels ∧
    (metadata = .goNil →
      c.args = [l.processID, l.processName, deviceID, fileID, goToLower logLevel,
                goToLower status, l.createdBy, captureStackTrace err env.caller, "null"]) ∧
    (∀ s, metadata = .doc s →
      c.args = [l.processID, l.processName, deviceID, fileID, goToLower logLevel,
                goToLower status, l.createdBy, captureStackTrace err env.caller, s]) := by
  by_cases hdb : l.db = false
  · simp [LogToDBV0, hdb] at hc
  · by_cases hlen : goLen deviceID ≠ 16 ∨ goLen fileID ≠ 64
    · simp [LogToDBV0, hdb, hlen] at hc
    · by_cases hlv : goToLower logLevel ∉ validLogLevels
      · simp [LogToDBV0, hdb, hlen, hlv] at hc
      · rcases metadata with _ | s | e <;>
          simp [LogToDBV0, hdb, hlen, hlv, jsonMarshal] at hc <;>
          simp [← hc, not_not.mp hlv]

/-- Claim C4: `LogToDB` lowercases the level before the membership check,
stores the lowercased value, and its whole behavior is invariant under the
casing of `logLevel`: arguments with equal lowercasings give identical
effects, every executed insert stores the lowercased level as its fifth
argument (having passed the membership check on it), and a level invalid
after lowercasing is dropped with the level diagnostic. -/
theorem logToDB_level_casing
    (l : Logger) (deviceID fileID status : String) (metadata : Metadata)
    (err : GoError) (env : Env) (logLevel logLevel2 : String)
    (hcase : goToLower logLevel = goToLower logLevel2) :
    LogToDB l deviceID fileID logLevel status metadata err env =
      LogToDB l deviceID fileID logLevel2 status metadata err env ∧
    (∀ c, (LogToDB l deviceID fileID logLevel status metadata err env).insert = some c →
        goToLower logLevel ∈ validLogLevels ∧
        c.args.get? 4 = some (goToLower logLevel)) ∧
    (l.db = true → goLen deviceID = 16 → goLen fileID = 64 →
      goToLower logLevel ∉ validLogLevels →
      LogToDB l deviceID fileID logLevel status metadata err env =
        { fileLines := [invalidLevelLine], insert := none }) := by
  refine ⟨by simp only [LogToDB, hcase], ?_, ?_⟩
  · intro c hc
    obtain ⟨-, -, hmem, hnil, hdoc⟩ :=
      logToDB_insert_shape l deviceID fileID logLevel status metadata err env c hc
    refine ⟨hmem, ?_⟩
    rcases metadata with _ | s | e
    · simp [hnil rfl]
    · simp [hdoc s rfl]
    · by_cases hdb : l.db = false
      · simp [LogToDB, hdb] at hc
      · by_cases hlen : goLen deviceID ≠ 16 ∨ goLen fileID ≠ 64
        · simp [LogToDB, hdb, hlen] at hc
        · simp [LogToDB, hdb, hlen, hmem, jsonMarshal] at hc
  · intro hdb hd hf hlv
    simp [LogToDB, hdb, hd, hf, hlv]

/-- Witness for C4 at the casings `INFO` and `info` of a valid record. -/
theorem logToDB_level_casing_witness :
    LogToDB { db := true, processID := "9", createdBy := "c", schema := "public", processName := "p" }
        "0101FCED8C5C2AE2"
        "00064467DD629E36C838C3E94F20A490A96B4DB084FA300C3DD64D5D45949DE9"
        "INFO" "ok" .goNil none { caller := none, execErr := none } =
      LogToDB { db := true, processID := "9", createdBy := "c", schema := "public", processName := "p" }
        "0101FCED8C5C2AE2"
        "00064467DD629E36C838C3E94F20A490A96B4DB084FA300C3DD64D5D45949DE9"
        "info" "ok" .goNil none { caller := none, execErr := none } :=
  (logToDB_level_casing _ _ _ _ _ _ _ "INFO" "info" (by decide)).1

/-- Claim C5: with a pool configured, a record failing a length or level
invariant is dropped before reaching the persistent sink: `Log` performs no
insert and the file sink receives exactly the event line plus the single
local diagnostic for the violated constraint. -/
theorem log_invalid_record_dropped
    (l : Logger) (deviceID fileID logLevel status : String)
    (metadata : Metadata) (err : GoError) (env : Env) (hdb : l.db = true)
    (hbad : goLen deviceID ≠ 16 ∨ goLen fileID ≠ 64 ∨
      goToLower logLevel ∉ validLogLevels) :
    (Log l deviceID fileID logLevel status metadata err env).insert = none ∧
    (Log l deviceID fileID logLevel status metadata err env).fileLines.length = 2 ∧
    ((Log l deviceID fileID logLevel status metadata err env).fileLines.tail =
        [invalidIDLine] ∨
     (Log l deviceID fileID logLevel status metadata err env).fileLines.tail =
        [invalidLevelLine]) := by
  by_cases hlen : goLen deviceID ≠ 16 ∨ goLen fileID ≠ 64
  · cases err <;> simp [Log, LogToDB, hdb, hlen]
  · have hlv : goToLower logLevel ∉ validLogLevels := by tauto
    cases err <;> simp [Log, LogToDB, hdb, hlen, hlv]

/-- Witness for C5: an invalid log level is dropped with one diagnostic. -/
theorem log_invalid_record_dropped_witness :
    (Log { db := true, processID := "9", createdBy := "c", schema := "public", processName := "p" }
        "0101FCED8C5C2AE2"
        "00064467DD629E36C838C3E94F20A490A96B4DB084FA300C3DD64D5D45949DE9"
        "FATAL" "ok" .goNil none { caller := none, execErr := none }).insert = none ∧
    (Log { db := true, processID := "9", createdBy := "c", schema := "public", processName := "p" }
        "0101FCED8C5C2AE2"
        "00064467DD629E36C838C3E94F20A490A96B4DB084FA300C3DD64D5D45949DE9"
        "FATAL" "ok" .goNil none { caller := none, execErr := none }).fileLines.length = 2 ∧
    ((Log { db := true, processID := "9", createdBy := "c", schema := "public", processName := "p" }
        "0101FCED8C5C2AE2"
        "00064467DD629E36C838C3E94F20A490A96B4DB084FA300C3DD64D5D45949DE9"
        "FATAL" "ok" .goNil none { caller := none, execErr := none }).fileLines.tail =
        [invalidIDLine] ∨
     (Log { db := true, processID := "9", createdBy := "c", schema := "public", processName := "p" }
        "0101FCED8C5C2AE2"
        "00064467DD629E36C838C3E94F20A490A96B4DB084FA300C3DD64D5D45949DE9"
        "FATAL" "ok" .goNil none { caller := none, execErr := none }).fileLines.tail =
        [invalidLevelLine]) :=
  log_invalid_record_dropped _ _ _ _ _ _ _ _ rfl (Or.inr (Or.inr (by decide)))

/-- Claim C6: for a valid record, nil metadata is passed to the insert as
the literal empty JSON document (never null), and a metadata value that
fails serialization produces the local diagnostic and aborts only the
persistence attempt — the event file line is still written and the call
carries no error. -/
theorem log_metadata_handling
    (l : Logger) (deviceID fileID logLevel status : String) (err : GoError)
    (env : Env) (hdb : l.db = true) (hd : goLen deviceID = 16)
    (hf : goLen fileID = 64) (hlv : goToLower logLevel ∈ validLogLevels) :
    (∃ c, (LogToDB l deviceID fileID logLevel status .goNil err env).insert = some c ∧
       c.args.drop 8 = ["\x7b\x7d"]) ∧
    (∀ emsg,
      (Log l deviceID fileID logLevel status (.bad emsg) err env).fileLines.length = 2 ∧
      (Log l deviceID fileID logLevel status (.bad emsg) err env).fileLines.tail =
        [marshalFailLine emsg] ∧
      (Log l deviceID fileID logLevel status (.bad emsg) err env).insert = none) := by
  constructor
  · exact ⟨{ query := insertQuery l.schema, timeoutSeconds := 30,
             args := [l.processID, l.processName, deviceID, fileID, goToLower logLevel,
                      goToLower status, l.createdBy, captureStackTrace err env.caller, "\x7b\x7d"] },
           by simp [LogToDB, hdb, hd, hf, hlv], by simp⟩
  · intro emsg
    cases err <;> simp [Log, LogToDB, hdb, hd, hf, hlv, jsonMarshal]

/-- Witness for C6 on a concrete valid record: the insert is attempted for
nil metadata, and a failing metadata value leaves two file lines ending in
the serialization diagnostic with no insert. -/
theorem log_metadata_handling_witness :
    (LogToDB { db := true, processID := "9", createdBy := "c", schema := "public", processName := "p" }
        "0101FCED8C5C2AE2"
        "00064467DD629E36C838C3E94F20A490A96B4DB084FA300C3DD64D5D45949DE9"
        "info" "ok" .goNil none { caller := none, execErr := none }).insert.isSome = true ∧
    (Log { db := true, processID := "9", createdBy := "c", schema := "public", processName := "p" }
        "0101FCED8C5C2AE2"
        "00064467DD629E36C838C3E94F20A490A96B4DB084FA300C3DD64D5D45949DE9"
        "info" "ok" (.bad "boom") none { caller := none, execErr := none }).fileLines.tail =
      [marshalFailLine "boom"] ∧
    (Log { db := true, processID := "9", createdBy := "c", schema := "public", processName := "p" }
        "0101FCED8C5C2AE2"
        "00064467DD629E36C838C3E94F20A490A96B4DB084FA300C3DD64D5D45949DE9"
        "info" "ok" (.bad "boom") none { caller := none, execErr := none }).insert = none := by
  obtain ⟨⟨c, hc, -⟩, h2⟩ :=
    log_metadata_handling { db := true, processID := "9", createdBy := "c", schema := "public", processName := "p" }
      "0101FCED8C5C2AE2"
      "00064467DD629E36C838C3E94F20A490A96B4DB084FA300C3DD64D5D45949DE9"
      "info" "ok" none { caller := none, execErr := none }
      rfl (by decide) (by decide) (by decide)
  exact ⟨by simp [hc], (h2 "boom").2.1, (h2 "boom").2.2⟩

/-- Claim C1: `Log` never propagates a failure to the caller: every failure
mode — missing pool, length violation, level violation, metadata
serialization failure, insert execution failure — is caught where it
occurs and leaves exactly its one-line diagnostic in the file sink after
the event line, and the call always returns a well-defined effect with no
error channel. -/
theorem log_absorbs_all_failures
    (l : Logger) (deviceID fileID logLevel status : String)
    (metadata : Metadata) (err : GoError) (env : Env) :
    (l.db = false →
      (Log l deviceID fileID logLevel status metadata err env).fileLines.tail = [noDBLine] ∧
      (Log l deviceID fileID logLevel status metadata err env).insert = none) ∧
    (l.db = true → goLen deviceID ≠ 16 ∨ goLen fileID ≠ 64 →
      (Log l deviceID fileID logLevel status metadata err env).fileLines.tail = [invalidIDLine] ∧
      (Log l deviceID fileID logLevel status metadata err env).insert = none) ∧
    (l.db = true → goLen deviceID = 16 → goLen fileID = 64 →
      goToLower logLevel ∉ validLogLevels →
      (Log l deviceID fileID logLevel status metadata err env).fileLines.tail = [invalidLevelLine] ∧
      (Log l deviceID fileID logLevel status metadata err env).insert = none) ∧
    (∀ emsg, metadata = .bad emsg → l.db = true → goLen deviceID = 16 → goLen fileID = 64 →
      goToLower logLevel ∈ validLogLevels →
      (Log l deviceID fileID logLevel status metadata err env).fileLines.tail = [marshalFailLine emsg] ∧
      (Log l deviceID fileID logLevel status metadata err env).insert = none) ∧
    (∀ emsg, env.execErr = some emsg → (∀ b, metadata ≠ Metadata.bad b) →
      l.db = true → goLen deviceID = 16 → goLen fileID = 64 →
      goToLower logLevel ∈ validLogLevels →
      (Log l deviceID fileID logLevel status metadata err env).fileLines.tail = [insertFailLine emsg] ∧
      (Log l deviceID fileID logLevel status metadata err env).insert.isSome = true) := by
  refine ⟨?_, ?_, ?_, ?_, ?_⟩
  · intro hdb
    cases err <;> simp [Log, LogToDB, hdb]
  · intro hdb hlen
    cases err <;> simp [Log, LogToDB, hdb, hlen]
  · intro hdb hd hf hlv
    cases err <;> simp [Log, LogToDB, hdb, hd, hf, hlv]
  · intro emsg hm hdb hd hf hlv
    subst hm
    cases err <;> simp [Log, LogToDB, hdb, hd, hf, hlv, jsonMarshal]
  · intro emsg hexec hnotbad hdb hd hf hlv
    rcases metadata with _ | s | b
    · cases err <;> simp [Log, LogToDB, hdb, hd, hf, hlv, hexec, jsonMarshal]
    · cases err <;> simp [Log, LogToDB, hdb, hd, hf, hlv, hexec, jsonMarshal]
    · exact absurd rfl (hnotbad b)

/-- Witness for C1: a pool-less logger absorbs the failure into the single
skip diagnostic. -/
theorem log_absorbs_all_failures_witness :
    (Log { db := false, processID := "1", createdBy := "c", schema := "public", processName := "p" }
        "d" "f" "lv" "st" .goNil none { caller := none, execErr := none }).fileLines.tail =
      [noDBLine] ∧
    (Log { db := false, processID := "1", createdBy := "c", schema := "public", processName := "p" }
        "d" "f" "lv" "st" .goNil none { caller := none, execErr := none }).insert = none :=
  (log_absorbs_all_failures _ "d" "f" "lv" "st" .goNil none _).1 rfl

/-- Claim C7: initialization falls back to the schema `public` exactly when
the supplied schema string is below the length threshold (at most 3 bytes)
and otherwise uses it verbatim: it appears unchanged in the stored handle
and in both bootstrap statements, and every insert the handle later issues
interpolates the stored schema into its statement. -/
theorem initLogger_schema_resolution
    (dbURL processName createdBy logFilePath schema : String) (env : InitEnv)
    (r : InitResult)
    (h : InitLogger dbURL processName createdBy logFilePath schema env = .ok r) :
    (goLen schema ≤ 3 →
      r.logger.schema = "public" ∧ r.schemaQuery = createSchemaQuery "public" ∧
      r.tableQuery = createTableQuery "public") ∧
    (¬ goLen schema ≤ 3 →
      r.logger.schema = schema ∧ r.schemaQuery = createSchemaQuery schema ∧
      r.tableQuery = createTableQuery schema) ∧
    (∀ deviceID fileID logLevel status metadata err wenv c,
      (LogToDB r.logger deviceID fileID logLevel status metadata err wenv).insert = some c →
      c.query = insertQuery r.logger.schema) := by
  have hr : r.logger.schema = (if goLen schema ≤ 3 then "public" else schema) ∧
      r.schemaQuery = createSchemaQuery (if goLen schema ≤ 3 then "public" else schema) ∧
      r.tableQuery = createTableQuery (if goLen schema ≤ 3 then "public" else schema) := by
    simp only [InitLogger] at h
    split at h
    · exact absurd h (by simp)
    · split at h
      · exact absurd h (by simp)
      · split at h
        · exact absurd h (by simp)
        · split at h
          · exact absurd h (by simp)
          · split at h
            · exact absurd h (by simp)
            · rw [Except.ok.injEq] at h
              subst h
              simp
  refine ⟨fun hs => ?_, fun hs => ?_, ?_⟩
  · refine ⟨?_, ?_, ?_⟩ <;> simp [hr.1, hr.2.1, hr.2.2, if_pos hs]
  · refine ⟨?_, ?_, ?_⟩ <;> simp [hr.1, hr.2.1, hr.2.2, if_neg hs]
  · intro deviceID fileID logLevel status metadata err wenv c hc
    exact (logToDB_insert_shape r.logger deviceID fileID logLevel status metadata err wenv c hc).1

/-- Witness for C7: a successful initialization with the 8-byte schema
`fotalogs` keeps it verbatim in the handle. -/
theorem initLogger_schema_resolution_witness :
    ¬ goLen "fotalogs" ≤ 3 ∧
    ({ logger := { db := true, processID := "7", createdBy := "cb", schema := "fotalogs", processName := "pn" }, schemaQuery := createSchemaQuery "fotalogs", tableQuery := createTableQuery "fotalogs", logPath := "app.log" } : InitResult).logger.schema = "fotalogs" :=
  ⟨by decide,
    ((initLogger_schema_resolution "postgres://u@h/db" "pn" "cb" "app.log" "fotalogs"
        { pid := 7, cwd := .ok "/w", poolErr := none, pingErr := none, schemaExecErr := none, tableExecErr := none }
        { logger := { db := true, processID := "7", createdBy := "cb", schema := "fotalogs", processName := "pn" }, schemaQuery := createSchemaQuery "fotalogs", tableQuery := createTableQuery "fotalogs", logPath := "app.log" }
        (by decide)).2.1 (by decide)).1⟩

/-- Claim C9 is false as stated: at a concrete valid record with nil
metadata the two revisions of `LogToDB` build different inserts — quoted
versus unquoted schema in the statement, 30- versus 5-second timeout, and
metadata serialized to the empty document versus `null`. -/
theorem logToDB_revisions_not_equivalent :
    (LogToDB { db := true, processID := "77", createdBy := "cb", schema := "fotalogs", processName := "pn" }
        "0101FCED8C5C2AE2"
        "00064467DD629E36C838C3E94F20A490A96B4DB084FA300C3DD64D5D45949DE9"
        "info" "ok" .goNil none { caller := none, execErr := none }).insert ≠
    (LogToDBV0 { db := true, processID := "77", createdBy := "cb", schema := "fotalogs", processName := "pn" }
        "0101FCED8C5C2AE2"
        "00064467DD629E36C838C3E94F20A490A96B4DB084FA300C3DD64D5D45949DE9"
        "info" "ok" .goNil none { caller := none, execErr := none }).insert := by
  decide

/-- A metadata value that fails serialization never reaches the insert, in
either revision. -/
theorem logToDB_bad_metadata_no_insert (l : Logger) (deviceID fileID logLevel status : String)
    (b : String) (err : GoError) (env : Env) :
    (LogToDB l deviceID fileID logLevel status (.bad b) err env).insert = none ∧
    (LogToDBV0 l deviceID fileID logLevel status (.bad b) err env).insert = none := by
  by_cases hdb : l.db = false
  · simp [LogToDB, LogToDBV0, hdb]
  · by_cases hlen : goLen deviceID ≠ 16 ∨ goLen fileID ≠ 64
    · simp [LogToDB, LogToDBV0, hdb, hlen]
    · by_cases hlv : goToLower logLevel ∉ validLogLevels
      · simp [LogToDB, LogToDBV0, hdb, hlen, hlv]
      · simp [LogToDB, LogToDBV0, hdb, hlen, hlv, jsonMarshal]

/-- Claim C9 amended: the two revisions produce the same file-sink lines on
every input, and their inserts coincide on presence and on the first eight
parameters; they differ exactly in the statement text (quoted versus
unquoted schema identifier), the execute timeout (30 versus 5 seconds),
and the serialized value of nil metadata (the empty document versus
`null`), agreeing on the serialized value of present metadata. -/
theorem logToDB_revisions_agree_up_to_known_differences
    (l : Logger) (deviceID fileID logLevel status : String)
    (metadata : Metadata) (err : GoError) (env : Env) :
    (LogToDB l deviceID fileID logLevel status metadata err env).fileLines =
      (LogToDBV0 l deviceID fileID logLevel status metadata err env).fileLines ∧
    ((LogToDB l deviceID fileID logLevel status metadata err env).insert = none ↔
      (LogToDBV0 l deviceID fileID logLevel status metadata err env).insert = none) ∧
    (∀ c c0, (LogToDB l deviceID fileID logLevel status metadata err env).insert = some c →
      (LogToDBV0 l deviceID fileID logLevel status metadata err env).insert = some c0 →
      c.timeoutSeconds = 30 ∧ c0.timeoutSeconds = 5 ∧
      c.query = insertQuery l.schema ∧ c0.query = insertQueryV0 l.schema ∧
      c.args.take 8 = c0.args.take 8 ∧
      (metadata = .goNil → c.args.drop 8 = ["\x7b\x7d"] ∧ c0.args.drop 8 = ["null"]) ∧
      (∀ s, metadata = .doc s → c.args.drop 8 = [s] ∧ c0.args.drop 8 = [s])) := by
  refine ⟨?_, ?_, ?_⟩
  · by_cases hdb : l.db = false
    · simp [LogToDB, LogToDBV0, hdb]
    · by_cases hlen : goLen deviceID ≠ 16 ∨ goLen fileID ≠ 64
      · simp [LogToDB, LogToDBV0, hdb, hlen]
      · by_cases hlv : goToLower logLevel ∉ validLogLevels
        · simp [LogToDB, LogToDBV0, hdb, hlen, hlv]
        · rcases metadata with _ | s | b <;>
            rcases henv : env.execErr with _ | e <;>
            simp [LogToDB, LogToDBV0, hdb, hlen, hlv, jsonMarshal, henv]
  · by_cases hdb : l.db = false
    · simp [LogToDB, LogToDBV0, hdb]
    · by_cases hlen : goLen deviceID ≠ 16 ∨ goLen fileID ≠ 64
      · simp [LogToDB, LogToDBV0, hdb, hlen]
      · by_cases hlv : goToLower logLevel ∉ validLogLevels
        · simp [LogToDB, LogToDBV0, hdb, hlen, hlv]
        · rcases metadata with _ | s | b <;>
            simp [LogToDB, LogToDBV0, hdb, hlen, hlv, jsonMarshal]
  · intro c c0 hc hc0
    obtain ⟨hq, ht, -, hnil, hdoc⟩ :=
      logToDB_insert_shape l deviceID fileID logLevel status metadata err env c hc
    obtain ⟨hq0, ht0, -, hnil0, hdoc0⟩ :=
      logToDBV0_insert_shape l deviceID fileID logLevel status metadata err env c0 hc0
    refine ⟨ht, ht0, hq, hq0, ?_, ?_, ?_⟩
    · rcases metadata with _ | s | b
      · simp [hnil rfl, hnil0 rfl]
      · simp [hdoc s rfl, hdoc0 s rfl]
      · exact absurd hc (by simp [(logToDB_bad_metadata_no_insert l deviceID fileID logLevel status b err env).1])
    · intro hm
      subst hm
      simp [hnil rfl, hnil0 rfl]
    · intro s hm
      subst hm
      simp [hdoc s rfl, hdoc0 s rfl]

/-- Witness for the amended C9 at a concrete valid record with nil
metadata: equal file lines, empty document in the first revision, `null`
in the second. -/
theorem logToDB_revisions_agree_up_to_known_differences_witness :
    (LogToDB { db := true, processID := "77", createdBy := "cb", schema := "fotalogs", processName := "pn" }
        "0101FCED8C5C2AE2"
        "00064467DD629E36C838C3E94F20A490A96B4DB084FA300C3DD64D5D45949DE9"
        "info" "ok" .goNil none { caller := none, execErr := none }).fileLines =
      (LogToDBV0 { db := true, processID := "77", createdBy := "cb", schema := "fotalogs", processName := "pn" }
        "0101FCED8C5C2AE2"
        "00064467DD629E36C838C3E94F20A490A96B4DB084FA300C3DD64D5D45949DE9"
        "info" "ok" .goNil none { caller := none, execErr := none }).fileLines ∧
    ({ query := insertQuery "fotalogs", timeoutSeconds := 30, args := ["77", "pn", "0101FCED8C5C2AE2", "00064467DD629E36C838C3E94F20A490A96B4DB084FA300C3DD64D5D45949DE9", "info", "ok", "cb", "", "\x7b\x7d"] } : InsertCall).args.drop 8 = ["\x7b\x7d"] ∧
    ({ query := insertQueryV0 "fotalogs", timeoutSeconds := 5, args := ["77", "pn", "0101FCED8C5C2AE2", "00064467DD629E36C838C3E94F20A490A96B4DB084FA300C3DD64D5D45949DE9", "info", "ok", "cb", "", "null"] } : InsertCall).args.drop 8 = ["null"] := by
  have h := logToDB_revisions_agree_up_to_known_differences
    { db := true, processID := "77", createdBy := "cb", schema := "fotalogs", processName := "pn" }
    "0101FCED8C5C2AE2"
    "00064467DD629E36C838C3E94F20A490A96B4DB084FA300C3DD64D5D45949DE9"
    "info" "ok" .goNil none { caller := none, execErr := none }
  have h4 := h.2.2
    { query := insertQuery "fotalogs", timeoutSeconds := 30, args := ["77", "pn", "0101FCED8C5C2AE2", "00064467DD629E36C838C3E94F20A490A96B4DB084FA300C3DD64D5D45949DE9", "info", "ok", "cb", "", "\x7b\x7d"] }
    { query := insertQueryV0 "fotalogs", timeoutSeconds := 5, args := ["77", "pn", "0101FCED8C5C2AE2", "00064467DD629E36C838C3E94F20A490A96B4DB084FA300C3DD64D5D45949DE9", "info", "ok", "cb", "", "null"] }
    (by decide) (by decide)
  exact ⟨h.1, (h4.2.2.2.2.2.1 rfl).1, (h4.2.2.2.2.2.1 rfl).2⟩

end LoggerGo
